import Mathlib

/-
Verification of the repetition-counting state machine and the debounced
edge/threshold event detectors of the personal-trainer repository.

The embedding is shallow:

* `BaseExerciseDetector` (src/api/exercises/base_exercise.py) becomes the
  `Profile`/`DetectorState` pair together with the per-frame update
  `on_joints_detected` and the finalizer `complete_rep`.  The exercise-specific
  abstract methods (`calculate_metrics`, `is_in_rep_position`,
  `is_at_starting_position`, `update_best_metrics`, `assess_rep_quality`) are
  the fields of `Profile`; subclasses supply them as values.  Wall-clock
  timestamps (`datetime.datetime.now()`) are modelled by the frame index that
  the driver passes to every per-frame call, and the append-only log file is
  modelled by the `log : List RepRecord` field of the state.
* The three handlers of src/api/core/event_handlers.py become
  `JointCrossingState`/`crossing_on_joints_detected`,
  `JointProximityState`/`proximity_on_joints_detected` and
  `JointAngleState`/`angle_on_joints_detected`.  Joint coordinates are exact
  rationals; `np.linalg.norm` (proximity) and `calculate_angle` (angle) are
  continuous-geometry computations performed before the logic under study, so
  their result is the per-frame input of the embedded step, `none` standing
  for a frame in which a required joint is undetected.
* `SquatDetector` (src/api/exercises/squat.py) is embedded at the metrics
  level: a frame carries the (knee_angle, squat_depth) pair that
  `calculate_metrics` would produce.
-/

namespace PersonalTrainer

/-- From src/exercises/utils.py: `all(joint is not None for joint in joints)`. -/
def all_joints_detected {P : Type} (joints : List (Option P)) : Bool :=
  joints.all (fun joint => joint.isSome)

/-- One line of the activity log, as written by `_log_rep` at the end of
`_complete_rep`: the 1-based rep number, the duration (here in frame units),
the quality label from `assess_rep_quality`, and the best-metrics snapshot the
quality was computed from. -/
structure RepRecord (M : Type) where
  rep_num : Nat
  duration : Nat
  quality : Option String
  metrics : Option M

/-- The exercise-specific capabilities a `BaseExerciseDetector` subclass must
provide (the abstract methods of base_exercise.py), plus the cooldown length
chosen at construction time. `P` is the joint-data type, `M` the metrics type. -/
structure Profile (P M : Type) where
  calculate_metrics : List P → M
  is_in_rep_position : M → Bool
  is_at_starting_position : M → Bool
  update_best_metrics : M → M → M
  assess_rep_quality : M → String
  cooldown_frames : Nat

/-- The mutable state of a `BaseExerciseDetector`: the fields set in
`BaseExerciseDetector.__init__` plus the log-file contents.  `current_metrics`
and `best_metrics` start as empty dicts in the source; `none` models the
not-yet-populated dict. -/
structure DetectorState (M : Type) where
  rep_count : Nat
  in_rep_position : Bool
  returned_to_start : Bool
  rep_start_time : Option Nat
  frames_since_last_rep : Nat
  current_metrics : Option M
  best_metrics : Option M
  log : List (RepRecord M)

/-- Source `BaseExerciseDetector.__init__`: zero reps, not in position, returned to
start, and the cooldown counter pre-loaded with `cooldown_frames`. -/
def initState {P M : Type} (p : Profile P M) : DetectorState M :=
  { rep_count := 0
    in_rep_position := false
    returned_to_start := true
    rep_start_time := none
    frames_since_last_rep := p.cooldown_frames
    current_metrics := none
    best_metrics := none
    log := [] }

/-- Source `BaseExerciseDetector._complete_rep`: increment the counter, reset the
cooldown counter, and append one record (built from `rep_start_time`,
`best_metrics` and `assess_rep_quality`) to the log. -/
def complete_rep {P M : Type} (p : Profile P M) (now : Nat)
    (s : DetectorState M) : DetectorState M :=
  let rc := s.rep_count + 1
  let r : RepRecord M :=
    { rep_num := rc
      duration := now - s.rep_start_time.getD 0
      quality := s.best_metrics.map p.assess_rep_quality
      metrics := s.best_metrics }
  { s with rep_count := rc, frames_since_last_rep := 0, log := s.log ++ [r] }

/-- Source `BaseExerciseDetector.on_joints_detected`, the per-frame update: increment
the cooldown counter unconditionally; stop if a required joint is missing;
otherwise compute the metrics and run the state machine (return transition
first, then entry transition, then the best-metrics update while active). -/
def on_joints_detected {P M : Type} (p : Profile P M) (now : Nat)
    (joints : List (Option P)) (s : DetectorState M) : DetectorState M :=
  let s1 := { s with frames_since_last_rep := s.frames_since_last_rep + 1 }
  if all_joints_detected joints then
    let m := p.calculate_metrics joints.reduceOption
    let s2 := { s1 with current_metrics := some m }
    let is_in_position := p.is_in_rep_position m
    let is_at_start := p.is_at_starting_position m
    if is_at_start && s2.in_rep_position then
      let s3 := { s2 with returned_to_start := true, in_rep_position := false }
      if p.cooldown_frames ≤ s3.frames_since_last_rep then
        complete_rep p now s3
      else
        s3
    else if is_in_position && !s2.in_rep_position && s2.returned_to_start then
      { s2 with in_rep_position := true, returned_to_start := false,
                rep_start_time := some now, best_metrics := some m }
    else if s2.in_rep_position then
      { s2 with best_metrics := s2.best_metrics.map (fun b => p.update_best_metrics m b) }
    else
      s2
  else
    s1

/-- Drive the detector over a list of frames, the frame index doubling as the
wall clock passed to the per-frame update. -/
def runFrom {P M : Type} (p : Profile P M) :
    Nat → DetectorState M → List (List (Option P)) → DetectorState M
  | _, s, [] => s
  | t, s, f :: fs => runFrom p (t + 1) (on_joints_detected p t f s) fs

/-- A full run of a freshly constructed detector over a frame sequence. -/
def run {P M : Type} (p : Profile P M) (frames : List (List (Option P))) :
    DetectorState M :=
  runFrom p 1 (initState p) frames

/-- The return-transition condition of a frame, read off the frame input and
the pre-state exactly as `on_joints_detected` tests it: all required joints
detected, the profile's `at_start` predicate true on this frame's metrics,
and the detector currently Active.  Defined from the inputs and predicates
alone, with no reference to `rep_count`, so counting these frames is
independent of anything the repetition counter does. -/
def is_return_frame {P M : Type} (p : Profile P M) (f : List (Option P))
    (s : DetectorState M) : Bool :=
  all_joints_detected f &&
    p.is_at_starting_position (p.calculate_metrics f.reduceOption) &&
    s.in_rep_position

/-- A return frame on which the cooldown test passes at that moment: the
source compares `frames_since_last_rep` after its unconditional increment,
hence the `+ 1` on the pre-state value. -/
def is_completing_return_frame {P M : Type} (p : Profile P M) (f : List (Option P))
    (s : DetectorState M) : Bool :=
  is_return_frame p f s &&
    decide (p.cooldown_frames ≤ s.frames_since_last_rep + 1)

/-- The entry-transition condition of a frame: all required joints detected,
the profile's `in_position` predicate true on this frame's metrics, the
detector not Active and returned to start.  (When the detector is not Active
the return branch cannot fire, so this is exactly the source's `elif`
condition.) -/
def is_entry_frame {P M : Type} (p : Profile P M) (f : List (Option P))
    (s : DetectorState M) : Bool :=
  all_joints_detected f &&
    p.is_in_rep_position (p.calculate_metrics f.reduceOption) &&
    !s.in_rep_position && s.returned_to_start

/-- Number of frames of a run satisfying the return-transition condition
(`at_start` while Active). -/
def countReturnsFrom {P M : Type} (p : Profile P M) :
    Nat → DetectorState M → List (List (Option P)) → Nat
  | _, _, [] => 0
  | t, s, f :: fs =>
      (if is_return_frame p f s then 1 else 0) +
        countReturnsFrom p (t + 1) (on_joints_detected p t f s) fs

/-- Number of return frames of a run with the cooldown satisfied at that
moment. -/
def countCompletingReturnsFrom {P M : Type} (p : Profile P M) :
    Nat → DetectorState M → List (List (Option P)) → Nat
  | _, _, [] => 0
  | t, s, f :: fs =>
      (if is_completing_return_frame p f s then 1 else 0) +
        countCompletingReturnsFrom p (t + 1) (on_joints_detected p t f s) fs

/-- Number of frames of a run satisfying the entry-transition condition. -/
def countEntriesFrom {P M : Type} (p : Profile P M) :
    Nat → DetectorState M → List (List (Option P)) → Nat
  | _, _, [] => 0
  | t, s, f :: fs =>
      (if is_entry_frame p f s then 1 else 0) +
        countEntriesFrom p (t + 1) (on_joints_detected p t f s) fs

/-- Return frames of a full run from a fresh detector. -/
def countReturns {P M : Type} (p : Profile P M)
    (frames : List (List (Option P))) : Nat :=
  countReturnsFrom p 1 (initState p) frames

/-- Cooldown-satisfying return frames of a full run from a fresh detector. -/
def countCompletingReturns {P M : Type} (p : Profile P M)
    (frames : List (List (Option P))) : Nat :=
  countCompletingReturnsFrom p 1 (initState p) frames

/-- Entry frames of a full run from a fresh detector. -/
def countEntries {P M : Type} (p : Profile P M)
    (frames : List (List (Option P))) : Nat :=
  countEntriesFrom p 1 (initState p) frames

/-- The three branches of `BaseExerciseDetector.get_instruction`; the concrete
wording is supplied by the subclass, so only the selected branch matters. -/
inductive ExerciseInstruction
  | inPositionInstr
  | returnInstr
  | readyInstr
deriving DecidableEq

/-- Source `BaseExerciseDetector.get_instruction`: in-position text while
`in_rep_position`, the return text when additionally `returned_to_start` is
false, otherwise the ready text. -/
def get_instruction {M : Type} (s : DetectorState M) : ExerciseInstruction :=
  if s.in_rep_position then ExerciseInstruction.inPositionInstr
  else if !s.returned_to_start then ExerciseInstruction.returnInstr
  else ExerciseInstruction.readyInstr

/-- Source `BaseExerciseDetector._complete_rep` with the log append of `_log_rep`
performed through a fallible sink (in the source, `open(self.log_file, 'a')`
followed by a write, either of which may raise).  The counter increment and
the cooldown reset precede the append attempt, exactly as in the source; a
sink failure is returned to the caller and only the log append is lost. -/
def complete_rep_sink {P M : Type} (p : Profile P M) (now : Nat)
    (s : DetectorState M) (sink : RepRecord M → Except String Unit) :
    DetectorState M × Except String Unit :=
  let rc := s.rep_count + 1
  let s1 := { s with rep_count := rc, frames_since_last_rep := 0 }
  let r : RepRecord M :=
    { rep_num := rc
      duration := now - s.rep_start_time.getD 0
      quality := s.best_metrics.map p.assess_rep_quality
      metrics := s.best_metrics }
  match sink r with
  | Except.ok _ => ({ s1 with log := s1.log ++ [r] }, Except.ok ())
  | Except.error e => (s1, Except.error e)

/-- The `SquatDetector` capabilities (src/api/exercises/squat.py), embedded at
the metrics level: a metric value is the pair (knee_angle, squat_depth) and a
frame carries that pair directly.  Thresholds are the constants set in
`SquatDetector.__init__`; `update_best_metrics` keeps the smallest depth seen
(replacing both stored fields, as the source does); `assess_rep_quality` is
the depth ladder of the source. -/
def squat_profile (cooldown_frames : Nat) : Profile (ℚ × ℚ) (ℚ × ℚ) where
  calculate_metrics := fun joints => joints.headD (0, 0)
  is_in_rep_position := fun m => decide (m.1 < 100) && decide (m.2 < 0.15)
  is_at_starting_position := fun m => decide (160 < m.1) && decide (0.25 < m.2)
  update_best_metrics := fun current best =>
    if current.2 < best.2 then current else best
  assess_rep_quality := fun m =>
    if m.2 < 0.10 then ("Excellent - ATG (Ass to Grass)")
    else if m.2 < 0.15 then ("Good - Full depth / Parallel")
    else if m.2 < 0.20 then ("Fair - Just below parallel")
    else ("Shallow - Go deeper")
  cooldown_frames := cooldown_frames

/-- The six per-frame (knee_angle, squat_depth) pairs of the end-to-end
scenario of §8 of the specification. -/
def squat_frames : List (List (Option (ℚ × ℚ))) :=
  [[some (170, 0.30)], [some (170, 0.30)], [some (95, 0.10)],
   [some (90, 0.08)], [some (95, 0.10)], [some (170, 0.30)]]

/-- State of the scenario detector (cooldown 2) after the first `n` frames. -/
def squat_run (n : Nat) : DetectorState (ℚ × ℚ) :=
  run (squat_profile 2) (squat_frames.take n)

/-- A 3D joint position in normalized coordinates. -/
def Vec3 : Type := ℚ × ℚ × ℚ

/-- Component of a position along the axis selected by `axis_idx`
(`self.axis_map` maps x, y, z to 0, 1, 2). -/
def getCoord (v : Vec3) (i : Fin 3) : ℚ :=
  if i = 0 then v.1 else if i = 1 then v.2.1 else v.2.2

/-- Function `np.sign`, restricted to the exact rationals used here. -/
def np_sign (q : ℚ) : Int :=
  if q < 0 then -1 else if 0 < q then 1 else 0

/-- State of `JointCrossingHandler`: the configuration stored by its
`__init__` (axis index, cooldown) together with `last_relative_position` and
`frames_since_last_event`; `fire_count` counts invocations of the
`on_joints_crossed` callback. -/
structure JointCrossingState where
  axis_idx : Fin 3
  cooldown_frames : Nat
  last_relative_position : Option ℚ
  frames_since_last_event : Nat
  fire_count : Nat

/-- Source `JointCrossingHandler.__init__`: no previous relative position, debounce
counter pre-loaded with `cooldown_frames`. -/
def crossing_init (axis_idx : Fin 3) (cooldown_frames : Nat) : JointCrossingState :=
  { axis_idx := axis_idx
    cooldown_frames := cooldown_frames
    last_relative_position := none
    frames_since_last_event := cooldown_frames
    fire_count := 0 }

/-- Source `JointCrossingHandler.on_joints_detected`: advance the debounce counter;
skip if either joint is undetected; fire when the sign of the relative
position differs from the stored one and the debounce window has elapsed,
resetting the counter to 0; finally store the new relative position. -/
def crossing_on_joints_detected (st : JointCrossingState)
    (joint1_pos joint2_pos : Option Vec3) : JointCrossingState :=
  let st1 := { st with frames_since_last_event := st.frames_since_last_event + 1 }
  match joint1_pos, joint2_pos with
  | some p1, some p2 =>
    let current_relative_position :=
      getCoord p1 st1.axis_idx - getCoord p2 st1.axis_idx
    let st2 :=
      match st1.last_relative_position with
      | some last =>
        if np_sign last ≠ np_sign current_relative_position ∧
            st1.cooldown_frames ≤ st1.frames_since_last_event then
          { st1 with fire_count := st1.fire_count + 1, frames_since_last_event := 0 }
        else st1
      | none => st1
    { st2 with last_relative_position := some current_relative_position }
  | _, _ => st1

/-- Drive a crossing handler over a sequence of per-frame joint-position
pairs. -/
def crossing_run (st : JointCrossingState)
    (inputs : List (Option Vec3 × Option Vec3)) : JointCrossingState :=
  inputs.foldl (fun s i => crossing_on_joints_detected s i.1 i.2) st

/-- The five-frame input realizing the signal sequence +1, +1, -1, -1, +1 on
the x axis. -/
def crossing_demo : List (Option Vec3 × Option Vec3) :=
  [(some (1, 0, 0), some (0, 0, 0)),
   (some (1, 0, 0), some (0, 0, 0)),
   (some (0, 0, 0), some (1, 0, 0)),
   (some (0, 0, 0), some (1, 0, 0)),
   (some (1, 0, 0), some (0, 0, 0))]

/-- State of `JointProximityHandler`: threshold and cooldown from `__init__`,
the `was_close` flag and the debounce counter; `fire_count` counts invocations
of the `on_joints_close` callback. -/
structure JointProximityState where
  threshold_distance : ℚ
  cooldown_frames : Nat
  frames_since_last_event : Nat
  was_close : Bool
  fire_count : Nat

/-- Source `JointProximityHandler.__init__`: not previously close, debounce counter
pre-loaded with `cooldown_frames`. -/
def proximity_init (threshold_distance : ℚ) (cooldown_frames : Nat) :
    JointProximityState :=
  { threshold_distance := threshold_distance
    cooldown_frames := cooldown_frames
    frames_since_last_event := cooldown_frames
    was_close := false
    fire_count := 0 }

/-- Source `JointProximityHandler.on_joints_detected`.  The per-frame input is the
joint distance `np.linalg.norm(joint1_pos - joint2_pos)`, or `none` when
either joint is undetected: advance the debounce counter; skip on missing
data; fire only when the joints become close (close now, not close on the
previous processed frame) with the debounce window elapsed, resetting the
counter; finally store the new closeness flag. -/
def proximity_on_joints_detected (st : JointProximityState)
    (dist : Option ℚ) : JointProximityState :=
  let st1 := { st with frames_since_last_event := st.frames_since_last_event + 1 }
  match dist with
  | none => st1
  | some distance =>
    let is_close : Bool := decide (distance < st1.threshold_distance)
    let st2 :=
      if is_close && !st1.was_close &&
          decide (st1.cooldown_frames ≤ st1.frames_since_last_event) then
        { st1 with fire_count := st1.fire_count + 1, frames_since_last_event := 0 }
      else st1
    { st2 with was_close := is_close }

/-- Drive a proximity handler over a sequence of per-frame distances. -/
def proximity_run (st : JointProximityState) (inputs : List (Option ℚ)) :
    JointProximityState :=
  inputs.foldl proximity_on_joints_detected st

/-- State of `JointAngleHandler`: threshold, comparison mode and cooldown from
`__init__`, the `threshold_crossed` flag and the debounce counter;
`fire_count` counts invocations of the `on_angle_threshold_crossed`
callback. -/
structure JointAngleState where
  angle_threshold : ℚ
  comparison : String
  cooldown_frames : Nat
  frames_since_last_event : Nat
  threshold_crossed : Bool
  fire_count : Nat

/-- Source `JointAngleHandler.__init__`: threshold not crossed, debounce counter
pre-loaded with `cooldown_frames`. -/
def angle_init (angle_threshold : ℚ) (comparison : String)
    (cooldown_frames : Nat) : JointAngleState :=
  { angle_threshold := angle_threshold
    comparison := comparison
    cooldown_frames := cooldown_frames
    frames_since_last_event := cooldown_frames
    threshold_crossed := false
    fire_count := 0 }

/-- Source `JointAngleHandler.on_joints_detected`.  The per-frame input is the angle
computed by `calculate_angle`, or `none` when a joint is undetected: advance
the debounce counter; skip on missing data; fire on the rising edge of the
threshold condition with the debounce window elapsed, resetting the counter;
finally store the new threshold flag. -/
def angle_on_joints_detected (st : JointAngleState) (angleIn : Option ℚ) :
    JointAngleState :=
  let st1 := { st with frames_since_last_event := st.frames_since_last_event + 1 }
  match angleIn with
  | none => st1
  | some angle =>
    let threshold_currently_crossed : Bool :=
      (st1.comparison == "less" && decide (angle < st1.angle_threshold)) ||
      (st1.comparison == "greater" && decide (st1.angle_threshold < angle))
    let st2 :=
      if threshold_currently_crossed && !st1.threshold_crossed &&
          decide (st1.cooldown_frames ≤ st1.frames_since_last_event) then
        { st1 with fire_count := st1.fire_count + 1, frames_since_last_event := 0 }
      else st1
    { st2 with threshold_crossed := threshold_currently_crossed }

/-! ### Helper lemmas about single steps of the repetition state machine -/

/-- The heart of the no-double-counting argument: a single per-frame update
increments the repetition counter exactly on a completing return frame
(`at_start` satisfied while Active with the cooldown elapsed at that moment)
and leaves it unchanged on every other kind of frame — entry frames,
oscillation inside Active, suppressed returns and skipped frames included. -/
theorem rep_count_step_eq {P M : Type} (p : Profile P M) (now : Nat)
    (f : List (Option P)) (s : DetectorState M) :
    (on_joints_detected p now f s).rep_count =
      s.rep_count + (if is_completing_return_frame p f s then 1 else 0) := by
  unfold on_joints_detected complete_rep is_completing_return_frame is_return_frame
  simp only []
  repeat' split
  all_goals simp_all
  all_goals omega

/-- The repetition counter of a run equals its starting value plus the number
of completing return frames of the run: each adds exactly one, and no other
frame touches the counter. -/
theorem runFrom_rep_count {P M : Type} (p : Profile P M)
    (frames : List (List (Option P))) :
    ∀ (t : Nat) (s : DetectorState M),
      (runFrom p t s frames).rep_count =
        s.rep_count + countCompletingReturnsFrom p t s frames := by
  induction frames with
  | nil => intro t s; rfl
  | cons f fs ih =>
    intro t s
    simp only [runFrom, countCompletingReturnsFrom, ih, rep_count_step_eq]
    omega

/-- A single per-frame update keeps `in_rep_position` and `returned_to_start`
complementary: each transition flips both together. -/
theorem flags_step {P M : Type} (p : Profile P M) (now : Nat)
    (joints : List (Option P)) (s : DetectorState M)
    (h : s.in_rep_position = !s.returned_to_start) :
    (on_joints_detected p now joints s).in_rep_position =
      !(on_joints_detected p now joints s).returned_to_start := by
  unfold on_joints_detected complete_rep
  simp only []
  repeat' split
  all_goals simp_all

/-- The complementary-flags property is preserved along any run. -/
theorem runFrom_flags {P M : Type} (p : Profile P M)
    (frames : List (List (Option P))) :
    ∀ (t : Nat) (s : DetectorState M),
      s.in_rep_position = !s.returned_to_start →
      (runFrom p t s frames).in_rep_position =
        !(runFrom p t s frames).returned_to_start := by
  induction frames with
  | nil => intro t s h; exact h
  | cons f fs ih => intro t s h; exact ih (t + 1) _ (flags_step p t f s h)

/-- A single per-frame update preserves the property that while no rep has been counted the
cooldown counter is at least the cooldown: a completion makes the antecedent
false, every other branch only increments the counter. -/
theorem zero_rep_cooldown_step {P M : Type} (p : Profile P M) (now : Nat)
    (joints : List (Option P)) (s : DetectorState M)
    (h : s.rep_count = 0 → p.cooldown_frames ≤ s.frames_since_last_rep) :
    (on_joints_detected p now joints s).rep_count = 0 →
      p.cooldown_frames ≤ (on_joints_detected p now joints s).frames_since_last_rep := by
  unfold on_joints_detected complete_rep
  simp only []
  repeat' split
  all_goals simp_all
  all_goals (intro hr; (try have hh := h hr); omega)

/-- The zero-rep cooldown property is preserved along any run. -/
theorem runFrom_zero_rep_cooldown {P M : Type} (p : Profile P M)
    (frames : List (List (Option P))) :
    ∀ (t : Nat) (s : DetectorState M),
      (s.rep_count = 0 → p.cooldown_frames ≤ s.frames_since_last_rep) →
      ((runFrom p t s frames).rep_count = 0 →
        p.cooldown_frames ≤ (runFrom p t s frames).frames_since_last_rep) := by
  induction frames with
  | nil => intro t s h; exact h
  | cons f fs ih => intro t s h; exact ih (t + 1) _ (zero_rep_cooldown_step p t f s h)

/-! ### The claims -/

/-- Claim C1 (no double counting): for every frame sequence of valid metrics
in which the detector satisfies the entry condition exactly once and
satisfies `at_start` while Active exactly once, with `frames_since_last_rep ≥
cooldown_frames` holding at that return (every return frame of the run passes
the cooldown test), the repetition counter of the whole run is exactly 1 — no
matter how many frames the sequence contains or how the metrics oscillate
while Active without satisfying `at_start`.  The entry, return and cooldown
conditions are the trace predicates `is_entry_frame`, `is_return_frame` and
`is_completing_return_frame`, read off the frame inputs and pre-states with
no reference to the counter; the proof rests on `rep_count_step_eq`, which
ties each counter increment to exactly one completing return frame.  The
validity and single-entry hypotheses delimit the claimed scenario and are not
otherwise needed: the return-side hypotheses alone force the count. -/
theorem no_double_counting {P M : Type} (p : Profile P M)
    (frames : List (List (Option P)))
    (_hvalid : ∀ f ∈ frames, all_joints_detected f = true)
    (_hentries : countEntries p frames = 1)
    (hreturns : countReturns p frames = 1)
    (hcooldown : countCompletingReturns p frames = countReturns p frames) :
    (run p frames).rep_count = 1 := by
  have h := runFrom_rep_count p frames 1 (initState p)
  unfold run
  rw [h]
  unfold countCompletingReturns countReturns at hcooldown
  unfold countReturns at hreturns
  rw [hcooldown, hreturns]
  rfl

/-- Witness for C1: the six-frame squat scenario has valid metrics on every
frame, exactly one entry frame, exactly one return frame, that return passes
the cooldown test, and the run indeed counts exactly one repetition. -/
theorem no_double_counting_witness :
    (run (squat_profile 2) squat_frames).rep_count = 1 :=
  no_double_counting (squat_profile 2) squat_frames
    (by
      intro f hf
      simp only [squat_frames, List.mem_cons, List.not_mem_nil, or_false] at hf
      rcases hf with h | h | h | h | h | h <;> subst h <;> rfl)
    (by
      norm_num [countEntries, countEntriesFrom, is_entry_frame, on_joints_detected,
        complete_rep, initState, squat_profile, squat_frames, all_joints_detected,
        List.reduceOption])
    (by
      norm_num [countReturns, countReturnsFrom, is_return_frame, on_joints_detected,
        complete_rep, initState, squat_profile, squat_frames, all_joints_detected,
        List.reduceOption])
    (by
      norm_num [countCompletingReturns, countCompletingReturnsFrom, countReturns,
        countReturnsFrom, is_completing_return_frame, is_return_frame,
        on_joints_detected, complete_rep, initState, squat_profile, squat_frames,
        all_joints_detected, List.reduceOption])

/-- Claim C2 (concrete end-to-end squat scenario, cooldown 2): the six metric
pairs (170,0.30), (170,0.30), (95,0.10), (90,0.08), (95,0.10), (170,0.30)
produce entry into Active at frame 3 (not yet at frame 2), best metrics seeded
with depth 0.10 at frame 3 and updated to 0.08 at frame 4, Active through
frame 5, return to Ready at frame 6, and exactly one finalized repetition
whose best depth is 0.08. -/
theorem squat_scenario :
    (squat_run 2).in_rep_position = false ∧
    (squat_run 3).in_rep_position = true ∧
    (squat_run 3).best_metrics = some (95, 0.10) ∧
    (squat_run 4).best_metrics = some (90, 0.08) ∧
    (squat_run 5).in_rep_position = true ∧
    (squat_run 6).in_rep_position = false ∧
    (squat_run 6).returned_to_start = true ∧
    (squat_run 6).rep_count = 1 ∧
    (squat_run 6).log.map RepRecord.metrics = [some (90, 0.08)] := by
  norm_num [squat_run, run, runFrom, on_joints_detected, complete_rep, initState,
    squat_profile, squat_frames, all_joints_detected, List.reduceOption,
    List.take_succ_cons, List.take_zero, List.take_nil]

/-- Claim C3 (cooldown suppression): on a frame with valid metrics where
`at_start` holds, the detector is Active, and the cooldown has not elapsed at
that moment (`frames_since_last_rep + 1 < cooldown_frames` after the
unconditional increment), the update only moves the state to Ready
(`in_rep_position` false, `returned_to_start` true) and records the metrics:
`rep_count` is unchanged, nothing is appended to the log,
`frames_since_last_rep` is incremented rather than reset, and the in-progress
`best_metrics` stay where they are without producing a record; moreover from
the resulting Ready state no update ever appends to the log, and re-entering
Active reseeds `best_metrics` from the fresh frame, so the suppressed
best metrics never reach a record. -/
theorem cooldown_suppression {P M : Type} (p : Profile P M) (now : Nat)
    (joints : List (Option P)) (s : DetectorState M)
    (hvalid : all_joints_detected joints = true)
    (hat : p.is_at_starting_position (p.calculate_metrics joints.reduceOption) = true)
    (hactive : s.in_rep_position = true)
    (hcool : s.frames_since_last_rep + 1 < p.cooldown_frames) :
    (on_joints_detected p now joints s =
      { s with frames_since_last_rep := s.frames_since_last_rep + 1,
               current_metrics := some (p.calculate_metrics joints.reduceOption),
               in_rep_position := false,
               returned_to_start := true }) ∧
    (∀ (now2 : Nat) (joints2 : List (Option P)) (s2 : DetectorState M),
      s2.in_rep_position = false →
      (on_joints_detected p now2 joints2 s2).log = s2.log ∧
      ((on_joints_detected p now2 joints2 s2).in_rep_position = true →
        (on_joints_detected p now2 joints2 s2).best_metrics =
          some (p.calculate_metrics joints2.reduceOption))) := by
  constructor
  · unfold on_joints_detected
    simp only []
    have hc : ¬ (p.cooldown_frames ≤ s.frames_since_last_rep + 1) := by omega
    simp [hvalid, hat, hactive, hc]
  · intro now2 joints2 s2 h2
    unfold on_joints_detected complete_rep
    simp only []
    repeat' split
    all_goals simp_all

/-- Witness for C3: a squat detector with cooldown 5, Active with counter 2,
sees a standing frame; it transitions to Ready with no rep counted, the
counter at 3, and the log still empty. -/
theorem cooldown_suppression_witness :
    on_joints_detected (squat_profile 5) 4 [some ((170 : ℚ), (0.30 : ℚ))]
        ⟨0, true, false, some 1, 2, none, some (90, 0.08), []⟩ =
      ⟨0, false, true, some 1, 3, some (170, 0.30), some (90, 0.08), []⟩ :=
  (cooldown_suppression (squat_profile 5) 4 [some ((170 : ℚ), (0.30 : ℚ))]
    ⟨0, true, false, some 1, 2, none, some (90, 0.08), []⟩
    rfl (by norm_num [squat_profile, List.reduceOption]) rfl
    (by norm_num [squat_profile])).1

/-- Claim C4 (single-frame tie-break): whenever a single per-frame update
changes the repetition counter, it increments it by exactly one, and in that
same invocation the detector ends not in rep position with `rep_start_time`
untouched: a frame never both finalizes a repetition and starts a new Active
cycle, so the earliest re-entry is a later frame. -/
theorem single_frame_tie_break {P M : Type} (p : Profile P M) (now : Nat)
    (joints : List (Option P)) (s : DetectorState M)
    (hrep : (on_joints_detected p now joints s).rep_count ≠ s.rep_count) :
    (on_joints_detected p now joints s).rep_count = s.rep_count + 1 ∧
    (on_joints_detected p now joints s).in_rep_position = false ∧
    (on_joints_detected p now joints s).rep_start_time = s.rep_start_time := by
  unfold on_joints_detected complete_rep at hrep ⊢
  simp only [] at hrep ⊢
  repeat' split at hrep <;> repeat' split <;> simp_all

/-- Witness for C4: a squat detector with cooldown 2, Active since frame 3,
completes a repetition on a standing frame and ends Ready, with
`rep_start_time` still recording the old entry. -/
theorem single_frame_tie_break_witness :
    (on_joints_detected (squat_profile 2) 6 [some ((170 : ℚ), (0.30 : ℚ))]
        ⟨0, true, false, some 3, 5, none, some (90, 0.08), []⟩).rep_count = 1 ∧
    (on_joints_detected (squat_profile 2) 6 [some ((170 : ℚ), (0.30 : ℚ))]
        ⟨0, true, false, some 3, 5, none, some (90, 0.08), []⟩).in_rep_position = false ∧
    (on_joints_detected (squat_profile 2) 6 [some ((170 : ℚ), (0.30 : ℚ))]
        ⟨0, true, false, some 3, 5, none, some (90, 0.08), []⟩).rep_start_time = some 3 :=
  single_frame_tie_break (squat_profile 2) 6 [some ((170 : ℚ), (0.30 : ℚ))]
    ⟨0, true, false, some 3, 5, none, some (90, 0.08), []⟩
    (by norm_num [on_joints_detected, complete_rep, squat_profile,
      all_joints_detected, List.reduceOption])

/-- Claim C5 (missing-joint frame effect): on a frame where some required
joint is undetected, the per-frame update changes nothing except
incrementing `frames_since_last_rep` by exactly one — counter, flags,
metrics, start time and log are all untouched, so the cooldown is measured in
wall-clock frames and valid data on the next frame resumes where the state
left off. -/
theorem missing_joint_frame_effect {P M : Type} (p : Profile P M) (now : Nat)
    (joints : List (Option P)) (s : DetectorState M)
    (hmissing : all_joints_detected joints = false) :
    on_joints_detected p now joints s =
      { s with frames_since_last_rep := s.frames_since_last_rep + 1 } := by
  unfold on_joints_detected
  simp [hmissing]

/-- Witness for C5: a fresh squat detector (cooldown 2) fed a frame with an
undetected joint only advances its cooldown counter from 2 to 3. -/
theorem missing_joint_frame_effect_witness :
    on_joints_detected (squat_profile 2) 1 ([none] : List (Option (ℚ × ℚ)))
        (initState (squat_profile 2)) =
      ⟨0, false, true, none, 3, none, none, []⟩ :=
  missing_joint_frame_effect (squat_profile 2) 1 [none] (initState (squat_profile 2)) rfl

/-- Claim C6 (sign-crossing detector): a frame with no stored previous
relative position never fires; a later frame with both joints detected fires
exactly when the sign of `joint1[axis] - joint2[axis]` differs from the sign
of the stored previous relative position and the debounce counter (after its
unconditional increment) has reached the cooldown, and each firing resets the
debounce counter to 0; for signal sequence +1, +1, -1, -1, +1 with cooldown 2
(satisfied between the sign changes) exactly 2 firings occur. -/
theorem sign_crossing_behavior :
    (∀ (st : JointCrossingState) (j1 j2 : Option Vec3),
      st.last_relative_position = none →
      (crossing_on_joints_detected st j1 j2).fire_count = st.fire_count) ∧
    (∀ (st : JointCrossingState) (p1 p2 : Vec3) (last : ℚ),
      st.last_relative_position = some last →
      (((crossing_on_joints_detected st (some p1) (some p2)).fire_count =
          st.fire_count + 1) ↔
        (np_sign last ≠ np_sign (getCoord p1 st.axis_idx - getCoord p2 st.axis_idx) ∧
         st.cooldown_frames ≤ st.frames_since_last_event + 1)) ∧
      (np_sign last ≠ np_sign (getCoord p1 st.axis_idx - getCoord p2 st.axis_idx) ∧
         st.cooldown_frames ≤ st.frames_since_last_event + 1 →
        (crossing_on_joints_detected st (some p1) (some p2)).frames_since_last_event = 0)) ∧
    (crossing_run (crossing_init 0 2) crossing_demo).fire_count = 2 := by
  refine ⟨?_, ?_, ?_⟩
  · intro st j1 j2 h
    cases j1 <;> cases j2 <;> simp [crossing_on_joints_detected, h]
  · intro st p1 p2 last h
    unfold crossing_on_joints_detected
    simp only [h]
    split <;> simp_all
  · norm_num [crossing_run, crossing_on_joints_detected, crossing_init, crossing_demo,
      getCoord, np_sign, List.foldl]

/-- Witness for C6: a fresh crossing detector sees signal +1 and does not
fire; a detector holding previous signal +1 with the cooldown (2) elapsed
sees signal -1, fires, and resets its debounce counter. -/
theorem sign_crossing_behavior_witness :
    (crossing_on_joints_detected (crossing_init 0 2)
      (some ((1 : ℚ), (0 : ℚ), (0 : ℚ))) (some (0, 0, 0))).fire_count = 0 ∧
    (crossing_on_joints_detected ⟨0, 2, some 1, 3, 0⟩
      (some ((0 : ℚ), (0 : ℚ), (0 : ℚ))) (some (1, 0, 0))).fire_count = 1 ∧
    (crossing_on_joints_detected ⟨0, 2, some 1, 3, 0⟩
      (some ((0 : ℚ), (0 : ℚ), (0 : ℚ))) (some (1, 0, 0))).frames_since_last_event = 0 := by
  refine ⟨sign_crossing_behavior.1 _ _ _ rfl, ?_, ?_⟩
  · exact (sign_crossing_behavior.2.1 ⟨0, 2, some 1, 3, 0⟩ (0, 0, 0) (1, 0, 0) 1 rfl).1.mpr
      ⟨by norm_num [np_sign, getCoord], by norm_num⟩
  · exact (sign_crossing_behavior.2.1 ⟨0, 2, some 1, 3, 0⟩ (0, 0, 0) (1, 0, 0) 1 rfl).2
      ⟨by norm_num [np_sign, getCoord], by norm_num⟩

/-- Claim C7 (proximity detector fires on the rising edge only): a frame with
a computed distance fires exactly when the distance is below the threshold,
the previous processed frame was not below it, and the debounce counter
(after its unconditional increment) has reached the cooldown — in particular
never while merely remaining close; for distances 0.3, 0.05, 0.04, 0.3
against threshold 0.1 with the cooldown satisfied, exactly one firing occurs,
at the 0.3 to 0.05 transition. -/
theorem proximity_rising_edge :
    (∀ (st : JointProximityState) (d : ℚ),
      ((proximity_on_joints_detected st (some d)).fire_count = st.fire_count + 1 ↔
        (d < st.threshold_distance ∧ st.was_close = false ∧
         st.cooldown_frames ≤ st.frames_since_last_event + 1))) ∧
    (∀ (st : JointProximityState) (d : ℚ),
      st.was_close = true →
      (proximity_on_joints_detected st (some d)).fire_count = st.fire_count) ∧
    ((proximity_run (proximity_init 0.1 30) [some 0.3]).fire_count = 0 ∧
     (proximity_run (proximity_init 0.1 30) [some 0.3, some 0.05]).fire_count = 1 ∧
     (proximity_run (proximity_init 0.1 30)
       [some 0.3, some 0.05, some 0.04]).fire_count = 1 ∧
     (proximity_run (proximity_init 0.1 30)
       [some 0.3, some 0.05, some 0.04, some 0.3]).fire_count = 1) := by
  refine ⟨?_, ?_, ?_⟩
  · intro st d
    unfold proximity_on_joints_detected
    simp only []
    split <;> simp_all
  · intro st d h
    simp [proximity_on_joints_detected, h]
  · norm_num [proximity_run, proximity_on_joints_detected, proximity_init, List.foldl]

/-- Witness for C7: with threshold 0.1 and cooldown elapsed, a detector that
was not close fires on distance 0.05, while one that was already close does
not fire on the same distance. -/
theorem proximity_rising_edge_witness :
    (proximity_on_joints_detected ⟨0.1, 30, 31, false, 0⟩ (some 0.05)).fire_count = 1 ∧
    (proximity_on_joints_detected ⟨0.1, 30, 31, true, 0⟩ (some 0.05)).fire_count = 0 := by
  constructor
  · exact (proximity_rising_edge.1 ⟨0.1, 30, 31, false, 0⟩ 0.05).mpr
      ⟨by norm_num, rfl, by norm_num⟩
  · exact proximity_rising_edge.2.1 ⟨0.1, 30, 31, true, 0⟩ 0.05 rfl

/-- Claim C8 (sink-failure atomicity): when a repetition is finalized and the
log-sink append fails, the in-memory state has still advanced — the counter
is already incremented and the cooldown counter already reset before the
append is attempted — and the state-machine flags and start time are neither
rolled back nor corrupted. -/
theorem sink_failure_atomicity {P M : Type} (p : Profile P M) (now : Nat)
    (s : DetectorState M) (sink : RepRecord M → Except String Unit) (e : String)
    (hfail : (complete_rep_sink p now s sink).2 = Except.error e) :
    (complete_rep_sink p now s sink).1.rep_count = s.rep_count + 1 ∧
    (complete_rep_sink p now s sink).1.frames_since_last_rep = 0 ∧
    (complete_rep_sink p now s sink).1.in_rep_position = s.in_rep_position ∧
    (complete_rep_sink p now s sink).1.returned_to_start = s.returned_to_start ∧
    (complete_rep_sink p now s sink).1.rep_start_time = s.rep_start_time := by
  unfold complete_rep_sink at hfail ⊢
  simp only [] at hfail ⊢
  split at hfail <;> simp_all

/-- Witness for C8: finalizing against a sink that always fails still yields
rep count 1, cooldown counter 0, and unchanged flags and start time. -/
theorem sink_failure_atomicity_witness :
    (complete_rep_sink (squat_profile 2) 6
      ⟨0, false, true, some 3, 6, none, some ((90 : ℚ), (0.08 : ℚ)), []⟩
      (fun _ => Except.error ("sink unavailable"))).1.rep_count = 1 ∧
    (complete_rep_sink (squat_profile 2) 6
      ⟨0, false, true, some 3, 6, none, some ((90 : ℚ), (0.08 : ℚ)), []⟩
      (fun _ => Except.error ("sink unavailable"))).1.frames_since_last_rep = 0 ∧
    (complete_rep_sink (squat_profile 2) 6
      ⟨0, false, true, some 3, 6, none, some ((90 : ℚ), (0.08 : ℚ)), []⟩
      (fun _ => Except.error ("sink unavailable"))).1.in_rep_position = false ∧
    (complete_rep_sink (squat_profile 2) 6
      ⟨0, false, true, some 3, 6, none, some ((90 : ℚ), (0.08 : ℚ)), []⟩
      (fun _ => Except.error ("sink unavailable"))).1.returned_to_start = true ∧
    (complete_rep_sink (squat_profile 2) 6
      ⟨0, false, true, some 3, 6, none, some ((90 : ℚ), (0.08 : ℚ)), []⟩
      (fun _ => Except.error ("sink unavailable"))).1.rep_start_time = some 3 :=
  sink_failure_atomicity (squat_profile 2) 6
    ⟨0, false, true, some 3, 6, none, some ((90 : ℚ), (0.08 : ℚ)), []⟩
    (fun _ => Except.error ("sink unavailable")) ("sink unavailable") rfl

/-- For any state whose flags are complementary, `get_instruction` selects
either the in-position text or the ready text — never the return text. -/
theorem get_instruction_of_flags {M : Type} (s : DetectorState M)
    (h : s.in_rep_position = !s.returned_to_start) :
    get_instruction s = ExerciseInstruction.inPositionInstr ∨
    get_instruction s = ExerciseInstruction.readyInstr := by
  unfold get_instruction
  cases hin : s.in_rep_position <;> cases hret : s.returned_to_start <;> simp_all

/-- Claim C9 (complementary flags, implicit invariant): in every state
reachable from construction by any sequence of per-frame updates,
`in_rep_position` is true exactly when `returned_to_start` is false; hence
the must-return branch of `get_instruction` is unreachable and the return
instruction is never produced. -/
theorem complementary_flags_invariant :
    ∀ (P M : Type) (p : Profile P M) (frames : List (List (Option P))),
      ((run p frames).in_rep_position = !(run p frames).returned_to_start) ∧
      (get_instruction (run p frames) = ExerciseInstruction.inPositionInstr ∨
       get_instruction (run p frames) = ExerciseInstruction.readyInstr) := by
  intro P M p frames
  have h : (run p frames).in_rep_position = !(run p frames).returned_to_start := by
    unfold run
    exact runFrom_flags p frames 1 (initState p) rfl
  exact ⟨h, get_instruction_of_flags _ h⟩

/-- Claim C10 (first-event cooldown exemption, implicit): every detector is
constructed with its debounce counter already equal to the cooldown — the rep
state machine and all three edge/threshold handlers — so the cooldown test is
satisfied at the first opportunity: a first qualifying proximity, angle or
crossing event fires on the earliest frame it can occur, and while no
repetition has been counted the rep machine's counter stays at or above the
cooldown, so the first return-to-start is never suppressed. -/
theorem first_event_cooldown_exemption :
    (∀ (P M : Type) (p : Profile P M),
      (initState p).frames_since_last_rep = p.cooldown_frames) ∧
    (∀ (ax : Fin 3) (cd : Nat),
      (crossing_init ax cd).frames_since_last_event = cd) ∧
    (∀ (thr : ℚ) (cd : Nat),
      (proximity_init thr cd).frames_since_last_event = cd) ∧
    (∀ (thr : ℚ) (cmp : String) (cd : Nat),
      (angle_init thr cmp cd).frames_since_last_event = cd) ∧
    (∀ (thr : ℚ) (cd : Nat) (d : ℚ), d < thr →
      (proximity_on_joints_detected (proximity_init thr cd) (some d)).fire_count = 1) ∧
    (∀ (thr : ℚ) (cd : Nat) (a : ℚ), a < thr →
      (angle_on_joints_detected (angle_init thr ("less") cd) (some a)).fire_count = 1) ∧
    (∀ (ax : Fin 3) (cd : Nat) (p1 p2 q1 q2 : Vec3),
      np_sign (getCoord p1 ax - getCoord p2 ax) ≠
        np_sign (getCoord q1 ax - getCoord q2 ax) →
      (crossing_on_joints_detected
        (crossing_on_joints_detected (crossing_init ax cd) (some p1) (some p2))
        (some q1) (some q2)).fire_count = 1) ∧
    (∀ (P M : Type) (p : Profile P M) (frames : List (List (Option P))),
      (run p frames).rep_count = 0 →
      p.cooldown_frames ≤ (run p frames).frames_since_last_rep) := by
  refine ⟨fun P M p => rfl, fun ax cd => rfl, fun thr cd => rfl,
    fun thr cmp cd => rfl, ?_, ?_, ?_, ?_⟩
  · intro thr cd d h
    unfold proximity_on_joints_detected proximity_init
    simp only []
    simp [h, Nat.le_succ]
  · intro thr cd a h
    unfold angle_on_joints_detected angle_init
    simp only []
    simp [h, Nat.le_succ]
  · intro ax cd p1 p2 q1 q2 h
    unfold crossing_on_joints_detected crossing_init
    simp only []
    rw [if_pos ⟨h, by omega⟩]
  · intro P M p frames h
    unfold run at h ⊢
    exact runFrom_zero_rep_cooldown p frames 1 (initState p) (fun _ => le_refl _) h

/-- Witness for C10: the scenario detector starts with its counter at the
cooldown; a fresh proximity detector fires on its very first close frame, a
fresh angle detector on its very first below-threshold frame, a fresh
crossing detector on the first sign change (its second frame); and after one
skipped frame with no rep counted the rep machine's counter is still at or
above the cooldown. -/
theorem first_event_cooldown_exemption_witness :
    (initState (squat_profile 2)).frames_since_last_rep = 2 ∧
    (proximity_on_joints_detected (proximity_init 0.1 30) (some 0.05)).fire_count = 1 ∧
    (angle_on_joints_detected (angle_init 100 ("less") 30) (some 90)).fire_count = 1 ∧
    (crossing_on_joints_detected
      (crossing_on_joints_detected (crossing_init 0 30)
        (some ((1 : ℚ), (0 : ℚ), (0 : ℚ))) (some (0, 0, 0)))
      (some (0, 0, 0)) (some (1, 0, 0))).fire_count = 1 ∧
    2 ≤ (run (squat_profile 2) [[none]]).frames_since_last_rep := by
  refine ⟨first_event_cooldown_exemption.1 (ℚ × ℚ) (ℚ × ℚ) (squat_profile 2),
    first_event_cooldown_exemption.2.2.2.2.1 0.1 30 0.05 (by norm_num),
    first_event_cooldown_exemption.2.2.2.2.2.1 100 30 90 (by norm_num),
    first_event_cooldown_exemption.2.2.2.2.2.2.1 0 30 (1, 0, 0) (0, 0, 0) (0, 0, 0) (1, 0, 0)
      (by norm_num [np_sign, getCoord]),
    first_event_cooldown_exemption.2.2.2.2.2.2.2 (ℚ × ℚ) (ℚ × ℚ) (squat_profile 2)
      [[none]] rfl⟩

end PersonalTrainer
